import Mathlib

/-!
Verification development for the termimg image-to-window compositing pipeline
(`src/main.rs`). The Rust source is shallowly embedded below:

* machine integers (`u16`, `i16`) are modeled as `Nat`/`Int` with explicit
  two's-complement wrapping (`toI16`, i.e. reduction modulo 2^16 followed by
  signed reinterpretation), matching the release-profile semantics of the
  Rust arithmetic in `rowcol_to_pixels`;
* Rust `i16` division truncates toward zero, which is `Int.tdiv`;
* fallible operations return `Option`/`Except`; a Rust panic (assertion
  failure or division by zero) is modeled as `Option.none` at the level of
  the whole computation;
* the X11 connection is modeled as an explicit request trace plus a
  per-call success oracle `ok : Nat → Bool` (call number ↦ did the protocol
  call succeed); `generate_id` is modeled as a pure counter.
-/

namespace Termimg

/-- Reinterpret an arbitrary integer as a 16-bit two's-complement value:
reduce modulo 2^16, then map the range [2^15, 2^16) to negatives.  This is
both the `as i16` cast of a `u16` value and the result of wrapping `i16`
arithmetic. -/
def toI16 (n : Int) : Int :=
  if n % 65536 < 32768 then n % 65536 else n % 65536 - 65536

/-- Embedding of `let pixels_per_row = (ypixels / rows) as i16;`
(src/main.rs:98-99): truncating `u16` division followed by an `as i16`
reinterpretation. -/
def per_cell (tpix grid : Nat) : Int :=
  toI16 ((tpix / grid : Nat) : Int)

/-- Embedding of `let yoffset = ((window_geometry.height - ypixels) as i16) / 2;`
(src/main.rs:100-101): wrapping `u16` subtraction, `as i16` cast, then
truncating signed division by 2. -/
def centering_offset (wdim tdim : Nat) : Int :=
  Int.tdiv (toI16 ((wdim : Int) - (tdim : Int))) 2

/-- Embedding of `rowcol_to_pixels` (src/main.rs:86-107), with the protocol
and terminal queries already resolved to values: `width`,`height` are the
target window geometry, `cols`,`rows` the terminal grid, `xpixels`,`ypixels`
the terminal pixel size, and `pos` the `(row, col)` parameter as destructured
by the function.  `none` models the Rust divide-by-zero panic when a grid
dimension is zero; all arithmetic wraps at 16 bits as in the source. -/
def rowcol_to_pixels (width height cols rows xpixels ypixels : Nat)
    (pos : Int × Int) : Option (Int × Int) :=
  if rows = 0 ∨ cols = 0 then none
  else
    let pixels_per_row := per_cell ypixels rows
    let pixels_per_col := per_cell xpixels cols
    let yoffset := centering_offset height ypixels
    let xoffset := centering_offset width xpixels
    some (toI16 (xoffset + toI16 (pos.2 * pixels_per_col)),
          toI16 (yoffset + toI16 (pos.1 * pixels_per_row)))

/-- Modelled from the spec: §4.2 CoordinateMapper.  Per-cell pixel size =
terminal pixel dimension ÷ terminal grid dimension (integer division,
truncating); centering offset per axis = (window dimension − terminal pixel
dimension) ÷ 2; final offset = centering offset + position-component ×
per-cell size (column → x, row → y), in exact integer arithmetic. -/
def spec_map (width height cols rows xpixels ypixels : Nat)
    (pos : Int × Int) : Int × Int :=
  let percell_y : Int := ((ypixels / rows : Nat) : Int)
  let percell_x : Int := ((xpixels / cols : Nat) : Int)
  let centering_y := Int.tdiv ((height : Int) - (ypixels : Int)) 2
  let centering_x := Int.tdiv ((width : Int) - (xpixels : Int)) 2
  (centering_x + pos.2 * percell_x, centering_y + pos.1 * percell_y)

theorem toI16_of_range {n : Int} (h1 : -32768 ≤ n) (h2 : n < 32768) :
    toI16 n = n := by
  unfold toI16
  split <;> omega

theorem toI16_lb (n : Int) : -32768 ≤ toI16 n := by
  unfold toI16
  split <;> omega

theorem toI16_ub (n : Int) : toI16 n < 32768 := by
  unfold toI16
  split <;> omega

theorem tdiv_two_lb {x : Int} (h : -32768 ≤ x) : -32768 ≤ Int.tdiv x 2 := by
  cases x with
  | ofNat n =>
      have he : Int.tdiv (Int.ofNat n) 2 = Int.ofNat (n / 2) := rfl
      rw [he]
      simp only [Int.ofNat_eq_natCast] at *
      omega
  | negSucc m =>
      have he : Int.tdiv (Int.negSucc m) 2 = -Int.ofNat ((m + 1) / 2) := rfl
      rw [he]
      simp only [Int.ofNat_eq_natCast, Int.negSucc_eq] at *
      omega

theorem tdiv_two_ub {x : Int} (h : x < 32768) : Int.tdiv x 2 < 32768 := by
  cases x with
  | ofNat n =>
      have he : Int.tdiv (Int.ofNat n) 2 = Int.ofNat (n / 2) := rfl
      rw [he]
      simp only [Int.ofNat_eq_natCast] at *
      omega
  | negSucc m =>
      have he : Int.tdiv (Int.negSucc m) 2 = -Int.ofNat ((m + 1) / 2) := rfl
      rw [he]
      simp only [Int.ofNat_eq_natCast, Int.negSucc_eq] at *
      omega

theorem tdiv_two_neg {x : Int} (h : x ≤ -2) : Int.tdiv x 2 < 0 := by
  cases x with
  | ofNat n =>
      simp only [Int.ofNat_eq_natCast] at h
      omega
  | negSucc m =>
      have he : Int.tdiv (Int.negSucc m) 2 = -Int.ofNat ((m + 1) / 2) := rfl
      rw [he]
      simp only [Int.ofNat_eq_natCast, Int.negSucc_eq] at *
      omega

theorem centering_offset_lb (wdim tdim : Nat) : -32768 ≤ centering_offset wdim tdim :=
  tdiv_two_lb (toI16_lb _)

theorem centering_offset_ub (wdim tdim : Nat) : centering_offset wdim tdim < 32768 :=
  tdiv_two_ub (toI16_ub _)

example : rowcol_to_pixels 800 600 80 24 800 480 (0, 0) = some (0, 60) := by decide

example : spec_map 800 600 80 24 800 480 (0, 0) = (0, 60) := by decide

example : rowcol_to_pixels 800 0 80 20 800 40000 (0, 0) = some (0, 12768) := by decide

/-- The color class of an X11 visual (the `VisualClass` enum of the
protocol). -/
inductive VisualClass where
  | StaticGray
  | GrayScale
  | StaticColor
  | PseudoColor
  | TrueColor
  | DirectColor
deriving DecidableEq

/-- An X11 visual descriptor as used by `check_visual`: identifier, color
class, and the three channel masks. -/
structure Visualtype where
  visual_id : Nat
  visualClass : VisualClass
  red_mask : Nat
  green_mask : Nat
  blue_mask : Nat
deriving DecidableEq

/-- One entry of `screen.allowed_depths`: an advertised depth together with
the visuals supported at that depth. -/
structure DepthGroup where
  depth : Nat
  visuals : List Visualtype
deriving DecidableEq

/-- The parts of the X11 `Screen` descriptor the program reads. -/
structure Screen where
  root : Nat
  root_depth : Nat
  root_visual : Nat
  allowed_depths : List DepthGroup
deriving DecidableEq

/-- One color channel of a pixel layout: bit-width and bit-shift.  Modelled
from the spec (§3 PixelLayout / §4.3), mirroring the external x11rb
`ColorComponent`. -/
structure ColorComponent where
  width : Nat
  shift : Nat
deriving DecidableEq

/-- A pixel layout: red, green and blue components.  Modelled from the spec
(§3), mirroring the external x11rb `PixelLayout`. -/
structure PixelLayout where
  red : ColorComponent
  green : ColorComponent
  blue : ColorComponent
deriving DecidableEq

/-- The bit depth derived from a layout: the component bit-widths summed
(§8 "a layout whose component bit-widths sum to the claimed depth"). -/
def PixelLayout.depth (l : PixelLayout) : Nat :=
  l.red.width + l.green.width + l.blue.width

/-- Modelled from the spec (§4.3): parse one channel mask into a
(bit-width, bit-shift) component; a malformed mask (zero, or not a single
contiguous run of bits) is rejected.  This mirrors the external x11rb
`ColorComponent::from_mask`. -/
def from_mask (mask : Nat) : Option ColorComponent :=
  (List.range 33).findSome? fun shift =>
    (List.range 33).findSome? fun width =>
      if width ≠ 0 ∧ mask = (2 ^ width - 1) * 2 ^ shift then
        some ⟨width, shift⟩
      else none

/-- Modelled from the spec (§4.1): build a `PixelLayout` from the three
channel masks of a visual descriptor, failing if any mask is malformed.
This mirrors the external x11rb `PixelLayout::from_visual_type`. -/
def from_visual_type (vt : Visualtype) : Option PixelLayout :=
  match from_mask vt.red_mask, from_mask vt.green_mask, from_mask vt.blue_mask with
  | some r, some g, some b => some ⟨r, g, b⟩
  | _, _, _ => none

/-- The visual lookup of `check_visual` (src/main.rs:37-44): scan the depth
groups in order and return the first one containing a visual whose id
matches, together with that visual. -/
def find_visual : List DepthGroup → Nat → Option (Nat × Visualtype)
  | [], _ => none
  | g :: gs, vid =>
      match g.visuals.find? (fun v => v.visual_id = vid) with
      | some v => some (g.depth, v)
      | none => find_visual gs vid

/-- Possible outcomes of `check_visual`: a hard `std::process::exit`, an
`assert_eq!` panic, an `anyhow` error return, or success with a layout. -/
inductive CheckOutcome where
  | exited (code : Nat)
  | panicked
  | error
  | ok (layout : PixelLayout)
deriving DecidableEq

/-- Embedding of `check_visual` (src/main.rs:35-67): exit(1) if the visual
id is not found in any depth group; exit(1) if its class is neither
true-color nor direct-color; error if the masks are malformed; panic if the
derived depth differs from the advertised depth; otherwise return the
layout. -/
def check_visual (screen : Screen) (vid : Nat) : CheckOutcome :=
  match find_visual screen.allowed_depths vid with
  | none => CheckOutcome.exited 1
  | some (depth, visual_type) =>
      match visual_type.visualClass with
      | VisualClass.TrueColor | VisualClass.DirectColor =>
          match from_visual_type visual_type with
          | none => CheckOutcome.error
          | some result =>
              if result.depth = depth then CheckOutcome.ok result
              else CheckOutcome.panicked
      | _ => CheckOutcome.exited 1

/-- An X11 protocol request issued on the connection, with the arguments
used by the source (`src/main.rs`).  `destroyWindow` is part of the display
protocol collaborator surface (§6) but is never issued by the program. -/
inductive XReq where
  | unmapWindow (w : Nat)
  | createGC (gc root : Nat)
  | createPixmap (depth pm drawable imgW imgH : Nat)
  | putImage (drawable gc : Nat) (x y : Int)
  | createWindow (depth win parent : Nat) (x y : Int) (imgW imgH : Nat) (bg : Nat)
  | reparentWindow (win parent : Nat) (x y : Int)
  | freePixmap (pm : Nat)
  | freeGC (gc : Nat)
  | mapWindow (w : Nat)
  | flushConn
  | destroyWindow (w : Nat)
  | getGeometry (w : Nat)
deriving DecidableEq

/-- One observable event of a program run: the connection handshake, the
focus-query subprocess, the terminal-size queries, the image decode, or a
protocol request on the established connection. -/
inductive MainEv where
  | connectCall
  | focusQueryCall
  | termSizeCall
  | termSizePixelsCall
  | decodeCall
  | protoReq (r : XReq)
deriving DecidableEq

/-- Connection-side state: the `generate_id` counter, the number of protocol
calls made so far (used to index the success oracle), and the log of events.
-/
structure ConnSt where
  nextId : Nat
  callIdx : Nat
  trace : List MainEv
deriving DecidableEq

/-- State of `ConnSt` after one protocol request has been sent. -/
def reqState (r : XReq) (s : ConnSt) : ConnSt :=
  { s with callIdx := s.callIdx + 1, trace := s.trace ++ [MainEv.protoReq r] }

/-- Issue one protocol request: log it, advance the call counter, and report
whether the call succeeded according to the oracle `ok`. -/
def doReq (ok : Nat → Bool) (r : XReq) (s : ConnSt) : ConnSt × Bool :=
  (reqState r s, ok s.callIdx)

/-- Embedding of the `struct ImageDisplay` entity (src/main.rs:109-114):
the re-encoded image is kept abstract except for its dimensions, the target
(parent) window handle is borrowed, and `window` is the optional handle to
the entity's own child window (`None` = Hidden, `Some` = Shown). -/
structure ImageDisplay where
  imageW : Nat
  imageH : Nat
  parent_window : Nat
  window : Option Nat
deriving DecidableEq

/-- Embedding of `self.window.is_some()` (src/main.rs:155-157). -/
def ImageDisplay.is_shown (d : ImageDisplay) : Bool :=
  d.window.isSome

/-- Embedding of one `conn.method(...)?` call inside a `Result`-returning
method: issue the request; on success continue with `k`, on failure return
`Err` (modeled as the `false` flag) with the entity in its current state
`d`. -/
def step (ok : Nat → Bool) (r : XReq) (s : ConnSt) (d : ImageDisplay)
    (k : ConnSt → Option (ConnSt × ImageDisplay × Bool)) :
    Option (ConnSt × ImageDisplay × Bool) :=
  if ok s.callIdx then k (reqState r s) else some (reqState r s, d, false)

/-- Embedding of `ImageDisplay::remove` (src/main.rs:159-167).  The result
is `none` when the `assert!(self.is_shown())` fires (a panic, not an error
return); otherwise `some (conn-state, entity, success-flag)`. -/
def ImageDisplay.remove (ok : Nat → Bool) (d : ImageDisplay) (s : ConnSt) :
    Option (ConnSt × ImageDisplay × Bool) :=
  match d.window with
  | none => none
  | some w =>
      step ok (XReq.unmapWindow w) s d fun s1 =>
        some (s1, { d with window := none }, true)

/-- The body of `ImageDisplay::show_at` after the optional removal of a
previously shown window (src/main.rs:180-227), starting from an entity `d1`
and connection state `s1`: generate ids and issue the nine protocol calls,
propagating the first failure.  The resource ids come from the pure
counter: `gc_id = nextId`, `pixmap_id = nextId + 1`, `win_id = nextId + 2`.
Every failing protocol call returns `Err` immediately (flag `false`),
exactly like the `?` operator in the source; in particular the
`free_pixmap`/`free_gc` calls at the end are only reached on the
all-success path. -/
def show_at_body (ok : Nat → Bool) (d1 : ImageDisplay) (scr : Screen)
    (pos : Int × Int) (s1 : ConnSt) : Option (ConnSt × ImageDisplay × Bool) :=
  let gc_id := s1.nextId
  let s1b := { s1 with nextId := s1.nextId + 1 }
  step ok (XReq.createGC gc_id scr.root) s1b d1 fun s2 =>
    let pixmap_id := s2.nextId
    let s2b := { s2 with nextId := s2.nextId + 1 }
    step ok (XReq.createPixmap scr.root_depth pixmap_id scr.root d1.imageW d1.imageH) s2b d1 fun s3 =>
      step ok (XReq.putImage pixmap_id gc_id 0 0) s3 d1 fun s4 =>
        let win_id := s4.nextId
        let s4b := { s4 with nextId := s4.nextId + 1 }
        step ok (XReq.createWindow scr.root_depth win_id scr.root 0 0 d1.imageW d1.imageH pixmap_id) s4b d1 fun s5 =>
          step ok (XReq.reparentWindow win_id d1.parent_window pos.1 pos.2) s5 d1 fun s6 =>
            step ok (XReq.freePixmap pixmap_id) s6 d1 fun s7 =>
              step ok (XReq.freeGC gc_id) s7 d1 fun s8 =>
                step ok (XReq.mapWindow win_id) s8 d1 fun s9 =>
                  step ok XReq.flushConn s9 d1 fun s10 =>
                    some (s10, { d1 with window := some win_id }, true)

/-- Embedding of `ImageDisplay::show_at` (src/main.rs:169-228).  `pos` is
the `(x, y)` pixel offset argument.  If the entity is shown, first `remove`
it (propagating failure); the `assert!(!self.is_shown())` is modeled by the
`none` (panic) arm; then run the request chain of `show_at_body`. -/
def ImageDisplay.show_at (ok : Nat → Bool) (d : ImageDisplay) (scr : Screen)
    (pos : Int × Int) (s0 : ConnSt) : Option (ConnSt × ImageDisplay × Bool) :=
  match (if d.is_shown then d.remove ok s0 else some (s0, d, true)) with
  | none => none
  | some (s1, d1, false) => some (s1, d1, false)
  | some (s1, d1, true) =>
    if d1.is_shown then none
    else show_at_body ok d1 scr pos s1

/-- The nine protocol requests issued by a fully successful `show_at` body
(after the optional unmap of a previously shown window), where `n` is the
value of the id counter at the start of the call. -/
def show_at_reqs (scr : Screen) (d : ImageDisplay) (pos : Int × Int)
    (n : Nat) : List MainEv :=
  [MainEv.protoReq (XReq.createGC n scr.root),
   MainEv.protoReq (XReq.createPixmap scr.root_depth (n + 1) scr.root d.imageW d.imageH),
   MainEv.protoReq (XReq.putImage (n + 1) n 0 0),
   MainEv.protoReq (XReq.createWindow scr.root_depth (n + 2) scr.root 0 0 d.imageW d.imageH (n + 1)),
   MainEv.protoReq (XReq.reparentWindow (n + 2) d.parent_window pos.1 pos.2),
   MainEv.protoReq (XReq.freePixmap (n + 1)),
   MainEv.protoReq (XReq.freeGC n),
   MainEv.protoReq (XReq.mapWindow (n + 2)),
   MainEv.protoReq XReq.flushConn]

theorem step_true {ok : Nat → Bool} {r : XReq} {s : ConnSt} {d : ImageDisplay}
    {k : ConnSt → Option (ConnSt × ImageDisplay × Bool)} {s2 : ConnSt}
    {d2 : ImageDisplay} (h : step ok r s d k = some (s2, d2, true)) :
    ok s.callIdx = true ∧ k (reqState r s) = some (s2, d2, true) := by
  by_cases hok : ok s.callIdx = true
  · exact ⟨hok, by simpa [step, hok] using h⟩
  · exfalso
    rw [step, if_neg hok] at h
    simp at h

/-- Characterization of a successful run of the `show_at` body: the entity
ends Shown with the freshly generated window id, the id counter advanced by
three, and the event log grew by exactly the nine requests of
`show_at_reqs`, in order. -/
theorem show_at_body_success {ok : Nat → Bool} {d1 : ImageDisplay} {scr : Screen}
    {pos : Int × Int} {s1 s2 : ConnSt} {d2 : ImageDisplay}
    (h : show_at_body ok d1 scr pos s1 = some (s2, d2, true)) :
    d2 = { d1 with window := some (s1.nextId + 2) } ∧
    s2.nextId = s1.nextId + 3 ∧
    s2.trace = s1.trace ++ show_at_reqs scr d1 pos s1.nextId := by
  rw [show_at_body] at h
  obtain ⟨-, h⟩ := step_true h
  simp only [reqState] at h
  obtain ⟨-, h⟩ := step_true h
  simp only [reqState] at h
  obtain ⟨-, h⟩ := step_true h
  simp only [reqState] at h
  obtain ⟨-, h⟩ := step_true h
  simp only [reqState] at h
  obtain ⟨-, h⟩ := step_true h
  simp only [reqState] at h
  obtain ⟨-, h⟩ := step_true h
  simp only [reqState] at h
  obtain ⟨-, h⟩ := step_true h
  simp only [reqState] at h
  obtain ⟨-, h⟩ := step_true h
  simp only [reqState] at h
  obtain ⟨-, h⟩ := step_true h
  simp only [reqState] at h
  simp only [Option.some.injEq, Prod.mk.injEq] at h
  obtain ⟨hS, hD, -⟩ := h
  subst hS
  subst hD
  refine ⟨rfl, rfl, ?_⟩
  simp [show_at_reqs, List.append_assoc]

/-- Characterization of a successful `show_at` call: the entity ends Shown
with the freshly generated window id, the id counter advanced by three, and
the event log grew by the unmap of the previously shown window (if any)
followed by the nine requests of `show_at_reqs`, in order. -/
theorem show_at_success_shape {ok : Nat → Bool} {d : ImageDisplay} {scr : Screen}
    {pos : Int × Int} {s0 s1 : ConnSt} {d1 : ImageDisplay}
    (h : d.show_at ok scr pos s0 = some (s1, d1, true)) :
    d1 = { d with window := some (s0.nextId + 2) } ∧
    s1.nextId = s0.nextId + 3 ∧
    s1.trace = s0.trace ++
      (match d.window with
       | some w => [MainEv.protoReq (XReq.unmapWindow w)]
       | none => []) ++
      show_at_reqs scr d pos s0.nextId := by
  cases hw : d.window with
  | none =>
      rw [ImageDisplay.show_at] at h
      have hs : d.is_shown = false := by simp [ImageDisplay.is_shown, hw]
      rw [hs] at h
      simp only [Bool.false_eq_true, if_false, hs] at h
      obtain ⟨hd2, hn, ht⟩ := show_at_body_success h
      refine ⟨hd2, hn, ?_⟩
      simpa [show_at_reqs] using ht
  | some w =>
      rw [ImageDisplay.show_at] at h
      have hs : d.is_shown = true := by simp [ImageDisplay.is_shown, hw]
      rw [hs] at h
      simp only [if_true, ImageDisplay.remove, hw, step, reqState] at h
      by_cases hok : ok s0.callIdx = true
      · rw [if_pos hok] at h
        have hs2 : ImageDisplay.is_shown { d with window := none } = false := by
          simp [ImageDisplay.is_shown]
        simp only [hs2, Bool.false_eq_true, if_false] at h
        obtain ⟨hd2, hn, ht⟩ := show_at_body_success h
        constructor
        · rw [hd2]
        · constructor
          · simpa using hn
          · rw [ht]
            simp [show_at_reqs, List.append_assoc]
      · rw [if_neg hok] at h
        simp at h

/-- C7: For every DisplayedImage entity in the Shown state, `remove` issues
exactly one unmap request for the stored child window, clears the handle on
success (transitioning to Hidden), and issues no window-destruction request;
calling `remove` on a Hidden entity is an assertion failure (modeled `none`),
not a recoverable error return. -/
theorem remove_contract :
    (∀ (ok : Nat → Bool) (d : ImageDisplay) (w : Nat) (s : ConnSt),
      d.window = some w →
      d.remove ok s =
        some ({ s with callIdx := s.callIdx + 1,
                       trace := s.trace ++ [MainEv.protoReq (XReq.unmapWindow w)] },
              (if ok s.callIdx then { d with window := none } else d),
              ok s.callIdx) ∧
      (∀ dw : Nat,
        MainEv.protoReq (XReq.destroyWindow dw) ∉ [MainEv.protoReq (XReq.unmapWindow w)])) ∧
    (∀ (ok : Nat → Bool) (d : ImageDisplay) (s : ConnSt),
      d.window = none → d.remove ok s = none) := by
  constructor
  · intro ok d w s hw
    constructor
    · rw [ImageDisplay.remove, hw]
      simp only [step, reqState]
      by_cases hok : ok s.callIdx = true <;> simp [hok]
    · intro dw
      simp
  · intro ok d s hw
    rw [ImageDisplay.remove, hw]

def okAllW : Nat → Bool := fun _ => true

def dShownW : ImageDisplay := { imageW := 2, imageH := 1, parent_window := 7, window := some 5 }

def dHiddenW : ImageDisplay := { imageW := 2, imageH := 1, parent_window := 7, window := none }

def csW : ConnSt := { nextId := 0, callIdx := 0, trace := [] }

/-- Witness for C7 at concrete inputs. -/
theorem remove_contract_witness :
    (dShownW.remove okAllW csW =
      some ({ csW with callIdx := csW.callIdx + 1,
                       trace := csW.trace ++ [MainEv.protoReq (XReq.unmapWindow 5)] },
            (if okAllW csW.callIdx then { dShownW with window := none } else dShownW),
            okAllW csW.callIdx) ∧
     (∀ dw : Nat,
       MainEv.protoReq (XReq.destroyWindow dw) ∉ [MainEv.protoReq (XReq.unmapWindow 5)])) ∧
    dHiddenW.remove okAllW csW = none :=
  ⟨remove_contract.1 okAllW dShownW 5 csW rfl, remove_contract.2 okAllW dHiddenW csW rfl⟩

/-- C1 (amended): on every `show_at` call that returns successfully, the
pixmap (`nextId + 1`) and graphics context (`nextId`) created inside the
call have been freed before the call returns. -/
theorem show_at_frees_on_success :
    ∀ (ok : Nat → Bool) (d : ImageDisplay) (scr : Screen) (pos : Int × Int)
      (s0 s1 : ConnSt) (d1 : ImageDisplay),
      d.show_at ok scr pos s0 = some (s1, d1, true) →
      MainEv.protoReq (XReq.freePixmap (s0.nextId + 1)) ∈ s1.trace ∧
      MainEv.protoReq (XReq.freeGC s0.nextId) ∈ s1.trace := by
  intro ok d scr pos s0 s1 d1 h
  obtain ⟨-, -, ht⟩ := show_at_success_shape h
  rw [ht]
  simp [show_at_reqs]

def dW : ImageDisplay := { imageW := 1, imageH := 1, parent_window := 5, window := none }

def scrW : Screen := { root := 3, root_depth := 24, root_visual := 9, allowed_depths := [] }

def trace1W : List MainEv :=
  [MainEv.protoReq (XReq.createGC 0 3),
   MainEv.protoReq (XReq.createPixmap 24 1 3 1 1),
   MainEv.protoReq (XReq.putImage 1 0 0 0),
   MainEv.protoReq (XReq.createWindow 24 2 3 0 0 1 1 1),
   MainEv.protoReq (XReq.reparentWindow 2 5 0 0),
   MainEv.protoReq (XReq.freePixmap 1),
   MainEv.protoReq (XReq.freeGC 0),
   MainEv.protoReq (XReq.mapWindow 2),
   MainEv.protoReq XReq.flushConn]

def s1W : ConnSt := { nextId := 3, callIdx := 9, trace := trace1W }

def d1W : ImageDisplay := { imageW := 1, imageH := 1, parent_window := 5, window := some 2 }

/-- Witness for C1's amended theorem at concrete inputs. -/
theorem show_at_frees_on_success_witness :
    MainEv.protoReq (XReq.freePixmap (csW.nextId + 1)) ∈ s1W.trace ∧
    MainEv.protoReq (XReq.freeGC csW.nextId) ∈ s1W.trace :=
  show_at_frees_on_success okAllW dW scrW (0, 0) csW s1W d1W (by decide)

/-- Success oracle that fails exactly the third protocol call of a run
(counting from zero): for a `show_at` from a hidden entity this is the
`put_image` paint call. -/
def putFailsOracle : Nat → Bool := fun n => !(n == 2)

def isCreatePixmapEv : MainEv → Bool
  | MainEv.protoReq (XReq.createPixmap _ _ _ _ _) => true
  | _ => false

def isFreePixmapEv : MainEv → Bool
  | MainEv.protoReq (XReq.freePixmap _) => true
  | _ => false

/-- C1 counterexample: when painting the pixmap fails after the pixmap was
created, `show_at` returns an error (`false` flag) and the trace contains a
`create_pixmap` request but no `free_pixmap` request at all — the pixmap is
not freed before `show_at` returns its error. -/
theorem show_at_leaks_pixmap_on_put_failure :
    (ImageDisplay.show_at putFailsOracle dW scrW (0, 0) csW).map
      (fun r => (r.2.2, r.1.trace.any isCreatePixmapEv, r.1.trace.any isFreePixmapEv))
      = some (false, true, false) := by decide

/-- C6: two successive successful `show_at` calls on the same entity leave
exactly one live child window handle: the first call's window (id
`s0.nextId + 2`) is unmapped at the start of the second call, before the
second call's pixmap (`s1.nextId + 1`) and window (`s1.nextId + 2`) are
created; after each call the entity is Shown holding exactly the newly
created handle, and the two handles differ. -/
theorem show_at_twice_single_window :
    ∀ (ok : Nat → Bool) (d : ImageDisplay) (scr : Screen) (p1 p2 : Int × Int)
      (s0 s1 s2 : ConnSt) (d1 d2 : ImageDisplay),
      d.show_at ok scr p1 s0 = some (s1, d1, true) →
      d1.show_at ok scr p2 s1 = some (s2, d2, true) →
      d1.window = some (s0.nextId + 2) ∧
      d2.window = some (s1.nextId + 2) ∧
      s1.nextId + 2 ≠ s0.nextId + 2 ∧
      s2.trace = s1.trace ++ [MainEv.protoReq (XReq.unmapWindow (s0.nextId + 2))] ++
        show_at_reqs scr d1 p2 s1.nextId ∧
      MainEv.protoReq (XReq.createPixmap scr.root_depth (s1.nextId + 1) scr.root d1.imageW d1.imageH)
        ∈ show_at_reqs scr d1 p2 s1.nextId ∧
      MainEv.protoReq
          (XReq.createWindow scr.root_depth (s1.nextId + 2) scr.root 0 0 d1.imageW d1.imageH (s1.nextId + 1))
        ∈ show_at_reqs scr d1 p2 s1.nextId := by
  intro ok d scr p1 p2 s0 s1 s2 d1 d2 h1 h2
  obtain ⟨hd1, hn1, -⟩ := show_at_success_shape h1
  obtain ⟨hd2, -, ht2⟩ := show_at_success_shape h2
  have hw1 : d1.window = some (s0.nextId + 2) := by rw [hd1]
  refine ⟨hw1, ?_, by omega, ?_, ?_, ?_⟩
  · rw [hd2]
  · rw [ht2, hw1]
  · simp [show_at_reqs]
  · simp [show_at_reqs]

def trace2W : List MainEv :=
  trace1W ++
  [MainEv.protoReq (XReq.unmapWindow 2),
   MainEv.protoReq (XReq.createGC 3 3),
   MainEv.protoReq (XReq.createPixmap 24 4 3 1 1),
   MainEv.protoReq (XReq.putImage 4 3 0 0),
   MainEv.protoReq (XReq.createWindow 24 5 3 0 0 1 1 4),
   MainEv.protoReq (XReq.reparentWindow 5 5 1 1),
   MainEv.protoReq (XReq.freePixmap 4),
   MainEv.protoReq (XReq.freeGC 3),
   MainEv.protoReq (XReq.mapWindow 5),
   MainEv.protoReq XReq.flushConn]

def s2W : ConnSt := { nextId := 6, callIdx := 19, trace := trace2W }

def d2W : ImageDisplay := { imageW := 1, imageH := 1, parent_window := 5, window := some 5 }

/-- Witness for C6 at concrete inputs: two all-success `show_at` calls. -/
theorem show_at_twice_single_window_witness :
    d1W.window = some (csW.nextId + 2) ∧
    d2W.window = some (s1W.nextId + 2) ∧
    s1W.nextId + 2 ≠ csW.nextId + 2 ∧
    s2W.trace = s1W.trace ++ [MainEv.protoReq (XReq.unmapWindow (csW.nextId + 2))] ++
      show_at_reqs scrW d1W (1, 1) s1W.nextId ∧
    MainEv.protoReq (XReq.createPixmap scrW.root_depth (s1W.nextId + 1) scrW.root d1W.imageW d1W.imageH)
      ∈ show_at_reqs scrW d1W (1, 1) s1W.nextId ∧
    MainEv.protoReq
        (XReq.createWindow scrW.root_depth (s1W.nextId + 2) scrW.root 0 0 d1W.imageW d1W.imageH (s1W.nextId + 1))
      ∈ show_at_reqs scrW d1W (1, 1) s1W.nextId :=
  show_at_twice_single_window okAllW dW scrW (0, 0) (1, 1) csW s1W s2W d1W d2W
    (by decide) (by decide)

/-- C4: `check_visual` exits the process (code 1, not an error return) when
the visual id is not found or when the found visual's class is neither
true-color nor direct-color; and for every conformant true-color or
direct-color visual (well-formed masks, derived depth matching the advertised depth of
the depth group containing the visual) it succeeds, returning a layout
whose derived bit depth equals that advertised depth. -/
theorem check_visual_contract :
    (∀ (s : Screen) (vid : Nat),
      find_visual s.allowed_depths vid = none →
      check_visual s vid = CheckOutcome.exited 1) ∧
    (∀ (s : Screen) (vid depth : Nat) (vt : Visualtype),
      find_visual s.allowed_depths vid = some (depth, vt) →
      vt.visualClass ≠ VisualClass.TrueColor →
      vt.visualClass ≠ VisualClass.DirectColor →
      check_visual s vid = CheckOutcome.exited 1) ∧
    (∀ (s : Screen) (vid depth : Nat) (vt : Visualtype) (L : PixelLayout),
      find_visual s.allowed_depths vid = some (depth, vt) →
      (vt.visualClass = VisualClass.TrueColor ∨ vt.visualClass = VisualClass.DirectColor) →
      from_visual_type vt = some L →
      L.depth = depth →
      check_visual s vid = CheckOutcome.ok L ∧ L.depth = depth) := by
  refine ⟨?_, ?_, ?_⟩
  · intro s vid h
    simp [check_visual, h]
  · intro s vid depth vt h hnt hnd
    cases hvc : vt.visualClass <;> simp_all [check_visual]
  · intro s vid depth vt L h hcl hfv hdep
    refine ⟨?_, hdep⟩
    rcases hcl with hvc | hvc <;> simp [check_visual, h, hvc, hfv, hdep]

def vtTrueW : Visualtype :=
  { visual_id := 5, visualClass := VisualClass.TrueColor,
    red_mask := 0xff0000, green_mask := 0xff00, blue_mask := 0xff }

def vtPseudoW : Visualtype :=
  { visual_id := 5, visualClass := VisualClass.PseudoColor,
    red_mask := 0, green_mask := 0, blue_mask := 0 }

def scrTrueW : Screen :=
  { root := 1, root_depth := 24, root_visual := 5,
    allowed_depths := [{ depth := 24, visuals := [vtTrueW] }] }

def scrPseudoW : Screen :=
  { root := 1, root_depth := 8, root_visual := 5,
    allowed_depths := [{ depth := 8, visuals := [vtPseudoW] }] }

def layoutW : PixelLayout := { red := ⟨8, 16⟩, green := ⟨8, 8⟩, blue := ⟨8, 0⟩ }

/-- Witness for C4 at concrete screens: unknown id, wrong class, and a
conformant 24-bit true-color visual. -/
theorem check_visual_contract_witness :
    check_visual scrTrueW 6 = CheckOutcome.exited 1 ∧
    check_visual scrPseudoW 5 = CheckOutcome.exited 1 ∧
    (check_visual scrTrueW 5 = CheckOutcome.ok layoutW ∧ layoutW.depth = 24) :=
  ⟨check_visual_contract.1 scrTrueW 6 (by decide),
   check_visual_contract.2.1 scrPseudoW 5 8 vtPseudoW (by decide) (by decide) (by decide),
   check_visual_contract.2.2 scrTrueW 5 24 vtTrueW layoutW (by decide) (Or.inl (by decide))
     (by decide) (by decide)⟩

/-- The captured output of the focus-query subprocess (`xdotool
getwindowfocus`): exit status, standard output and standard error. -/
structure FocusOutput where
  status : Nat
  stdout : String
  stderr : String
deriving DecidableEq

/-- Outcome of spawning the focus-query subprocess: either the spawn itself
failed, or the process ran and produced an output. -/
inductive FocusResult where
  | spawnFailed
  | ran (out : FocusOutput)
deriving DecidableEq

/-- Model of the Rust `str::trim`: strip leading and trailing whitespace. -/
def str_trim (s : String) : String :=
  String.mk ((s.data.dropWhile Char.isWhitespace).reverse.dropWhile Char.isWhitespace |>.reverse)

/-- Model of the Rust `parse::<u32>()` on the trimmed stdout: all-digit
non-empty string to number, otherwise a parse error (`none`).  (The `u32`
range check is immaterial here and not modeled.) -/
def parse_window_id (s : String) : Option Nat :=
  let t := str_trim s
  if t.data ≠ [] ∧ t.data.all Char.isDigit then
    some (t.data.foldl (fun a c => a * 10 + (c.toNat - 48)) 0)
  else none

/-- Embedding of `get_current_window_id` (src/main.rs:69-84).  An error is
modeled as its `anyhow` context chain (outermost context first); on a
non-zero exit status the chain carries the subprocess's standard-error text
(assumed valid UTF-8). -/
def get_current_window_id (f : FocusResult) : Except (List String) Nat :=
  match f with
  | FocusResult.spawnFailed => Except.error ["Failed to run xdotool"]
  | FocusResult.ran out =>
      if out.status = 0 then
        match parse_window_id out.stdout with
        | some n => Except.ok n
        | none => Except.error ["Couldn't parse window ID number from xdotool"]
      else
        Except.error ["xdotool exited with non-zero status", out.stderr]

/-- The environment a run of `main` interacts with: whether the X connection
handshake succeeds, the screen descriptor, the focus-query result, the
`get_geometry` reply (width, height; `none` = call failure), the terminal
size (cols, rows) and pixel size (xpixels, ypixels) replies, the decoded
image dimensions (`none` = decode failure), and the success oracle for the
protocol calls made by `show_at`. -/
structure World where
  connectOk : Bool
  screen : Screen
  focus : FocusResult
  geometry : Option (Nat × Nat)
  termSize : Option (Nat × Nat)
  termSizePixels : Option (Nat × Nat)
  decode : Option (Nat × Nat)
  reqOk : Nat → Bool

/-- Outcome of a run of `main`: a hard process exit, a panic, an error
return from `main`, or reaching the infinite event loop with final
connection state and entity. -/
inductive MainOutcome where
  | exited (code : Nat)
  | panicked
  | errored (msgs : List String)
  | looping (s : ConnSt) (d : ImageDisplay)
deriving DecidableEq

/-- Log a non-protocol event (terminal query, image decode). -/
def logEv (e : MainEv) (s : ConnSt) : ConnSt :=
  { s with trace := s.trace ++ [e] }

/-- The effectful part of `rowcol_to_pixels` (src/main.rs:86-107): issue the
`get_geometry` request, query the terminal grid size and pixel size, then
compute the offset.  The outer `Option` is `none` on the divide-by-zero
panic; the `Except` carries error context chains. -/
def rowcol_run (w : World) (window : Nat) (pos : Int × Int) (s : ConnSt) :
    ConnSt × Option (Except (List String) (Int × Int)) :=
  let s1 := reqState (XReq.getGeometry window) s
  match w.geometry with
  | none => (s1, some (Except.error ["get_geometry failed"]))
  | some g =>
      let s2 := logEv MainEv.termSizeCall s1
      match w.termSize with
      | none => (s2, some (Except.error ["Could not get terminal size"]))
      | some ts =>
          let s3 := logEv MainEv.termSizePixelsCall s2
          match w.termSizePixels with
          | none => (s3, some (Except.error ["Could not get terminal size in pixels"]))
          | some tp =>
              (s3, (rowcol_to_pixels g.1 g.2 ts.1 ts.2 tp.1 tp.2 pos).map Except.ok)

/-- Embedding of `main` (src/main.rs:238-262): connect to X, run the focus
query, map `(opt.col, opt.row)` — in that order, as at src/main.rs:249 — to
a pixel offset, decode the image, build the `ImageDisplay` (whose
construction runs `check_visual` on the screen's root visual;
`Image::new`/`reencode` buffer handling is outside this model), `show_at`
the computed offset, and enter the event loop. -/
def mainRun (w : World) (cliRow cliCol : Int) : List MainEv × MainOutcome :=
  let t0 : List MainEv := [MainEv.connectCall]
  if w.connectOk = false then (t0, MainOutcome.errored ["Couldn't connect to X"])
  else
    let t1 := t0 ++ [MainEv.focusQueryCall]
    match get_current_window_id w.focus with
    | Except.error e => (t1, MainOutcome.errored e)
    | Except.ok window =>
        let s0 : ConnSt := { nextId := 0, callIdx := 0, trace := t1 }
        match rowcol_run w window (cliCol, cliRow) s0 with
        | (s1, none) => (s1.trace, MainOutcome.panicked)
        | (s1, some (Except.error e)) => (s1.trace, MainOutcome.errored e)
        | (s1, some (Except.ok pos)) =>
            let s2 := logEv MainEv.decodeCall s1
            match w.decode with
            | none => (s2.trace, MainOutcome.errored ["image decode failed"])
            | some dims =>
                match check_visual w.screen w.screen.root_visual with
                | CheckOutcome.exited c => (s2.trace, MainOutcome.exited c)
                | CheckOutcome.panicked => (s2.trace, MainOutcome.panicked)
                | CheckOutcome.error =>
                    (s2.trace, MainOutcome.errored ["The server sent a malformed visual type"])
                | CheckOutcome.ok _ =>
                    let d : ImageDisplay :=
                      { imageW := dims.1, imageH := dims.2,
                        parent_window := window, window := none }
                    match d.show_at w.reqOk w.screen pos s2 with
                    | none => (s2.trace, MainOutcome.panicked)
                    | some (s3, _, false) => (s3.trace, MainOutcome.errored ["show_at failed"])
                    | some (s3, d3, true) => (s3.trace, MainOutcome.looping s3 d3)

/-- C5 (amended): if the focus-query process exits with non-zero status,
`main` fails with an error whose context chain contains the process's
standard-error text, before any display-protocol request is issued on the
established connection — only the initial connection handshake precedes the
failure. -/
theorem focus_failure_stops_pipeline :
    ∀ (w : World) (out : FocusOutput) (cliRow cliCol : Int),
      w.connectOk = true →
      w.focus = FocusResult.ran out →
      out.status ≠ 0 →
      mainRun w cliRow cliCol =
        ([MainEv.connectCall, MainEv.focusQueryCall],
         MainOutcome.errored ["xdotool exited with non-zero status", out.stderr]) ∧
      out.stderr ∈ ["xdotool exited with non-zero status", out.stderr] ∧
      (∀ r : XReq, MainEv.protoReq r ∉ [MainEv.connectCall, MainEv.focusQueryCall]) := by
  intro w out cliRow cliCol hconn hfocus hstatus
  refine ⟨?_, by simp, by simp⟩
  simp [mainRun, hconn, hfocus, get_current_window_id, hstatus]

def outNoWindowW : FocusOutput := { status := 1, stdout := "", stderr := "no window" }

def worldFocusFailW : World :=
  { connectOk := true, screen := scrTrueW, focus := FocusResult.ran outNoWindowW,
    geometry := some (800, 600), termSize := some (80, 24),
    termSizePixels := some (800, 480), decode := some (2, 1), reqOk := okAllW }

/-- Spec section 6 lists the connection handshake among the display
protocol collaborator remote calls, alongside the per-request protocol
calls. -/
def isDisplayProtocolCall : MainEv → Bool
  | MainEv.connectCall => true
  | MainEv.protoReq _ => true
  | _ => false

/-- Witness for C5's amended theorem at a concrete world. -/
theorem focus_failure_stops_pipeline_witness :
    mainRun worldFocusFailW 0 0 =
      ([MainEv.connectCall, MainEv.focusQueryCall],
       MainOutcome.errored ["xdotool exited with non-zero status", outNoWindowW.stderr]) ∧
    outNoWindowW.stderr ∈ ["xdotool exited with non-zero status", outNoWindowW.stderr] ∧
    (∀ r : XReq, MainEv.protoReq r ∉ [MainEv.connectCall, MainEv.focusQueryCall]) :=
  focus_failure_stops_pipeline worldFocusFailW outNoWindowW 0 0 rfl rfl (by decide)

/-- C5 counterexample: with the focus query exiting with status 1 and stderr
"no window", the pipeline does fail with an error containing "no window" —
but a display-protocol call (the connection handshake, §6) has already been
made by then, so the failure is not before *any* display-protocol call. -/
theorem focus_failure_after_connect :
    (mainRun worldFocusFailW 0 0).2 =
      MainOutcome.errored ["xdotool exited with non-zero status", "no window"] ∧
    "no window" ∈ ["xdotool exited with non-zero status", "no window"] ∧
    (mainRun worldFocusFailW 0 0).1.any isDisplayProtocolCall = true := by
  refine ⟨rfl, by simp, rfl⟩

/-- C3: `main` hands `rowcol_to_pixels` the pair `(opt.col, opt.row)`
(src/main.rs:249) while the function destructures its position parameter as
`(row, col)` (src/main.rs:89); consequently, in every run that reaches the
event loop, the child window is reparented at an x offset equal to the
x centering offset plus the CLI *row* argument times the per-column pixel
size, and a y offset equal to the y centering offset plus the CLI *column*
argument times the per-row pixel size (in the program's wrapping 16-bit
arithmetic). -/
theorem mainRun_position_swapped :
    ∀ (w : World) (cliRow cliCol : Int) (gw gh cols rows xp yp : Nat)
      (tr : List MainEv) (s3 : ConnSt) (d3 : ImageDisplay),
      w.geometry = some (gw, gh) →
      w.termSize = some (cols, rows) →
      w.termSizePixels = some (xp, yp) →
      mainRun w cliRow cliCol = (tr, MainOutcome.looping s3 d3) →
      MainEv.protoReq
          (XReq.reparentWindow 2 d3.parent_window
            (toI16 (centering_offset gw xp + toI16 (cliRow * per_cell xp cols)))
            (toI16 (centering_offset gh yp + toI16 (cliCol * per_cell yp rows))))
        ∈ tr := by
  intro w cliRow cliCol gw gh cols rows xp yp tr s3 d3 hg hts htp hrun
  cases hc : w.connectOk with
  | false => simp [mainRun, hc] at hrun
  | true =>
    cases hgw : get_current_window_id w.focus with
    | error e => simp [mainRun, hc, hgw] at hrun
    | ok window =>
      cases hrc : rowcol_to_pixels gw gh cols rows xp yp (cliCol, cliRow) with
      | none =>
          simp [mainRun, rowcol_run, logEv, reqState, hc, hgw, hg, hts, htp, hrc] at hrun
      | some pos =>
        cases hdec : w.decode with
        | none =>
            simp [mainRun, rowcol_run, logEv, reqState, hc, hgw, hg, hts, htp, hrc, hdec] at hrun
        | some dims =>
          cases hcv : check_visual w.screen w.screen.root_visual with
          | exited c =>
              simp [mainRun, rowcol_run, logEv, reqState, hc, hgw, hg, hts, htp, hrc, hdec, hcv] at hrun
          | panicked =>
              simp [mainRun, rowcol_run, logEv, reqState, hc, hgw, hg, hts, htp, hrc, hdec, hcv] at hrun
          | error =>
              simp [mainRun, rowcol_run, logEv, reqState, hc, hgw, hg, hts, htp, hrc, hdec, hcv] at hrun
          | ok L =>
            simp [mainRun, rowcol_run, logEv, reqState, hc, hgw, hg, hts, htp, hrc,
              hdec, hcv] at hrun
            split at hrun
            · simp at hrun
            · simp at hrun
            · rename_i s1h d1h heq
              simp only [Prod.mk.injEq, MainOutcome.looping.injEq] at hrun
              obtain ⟨htr, hs3, hd3⟩ := hrun
              subst htr
              subst hs3
              subst hd3
              obtain ⟨hd1, -, htrace⟩ := show_at_success_shape heq
              rw [htrace, hd1]
              rw [rowcol_to_pixels] at hrc
              by_cases hz : rows = 0 ∨ cols = 0
              · rw [if_pos hz] at hrc
                exact absurd hrc (by simp)
              · rw [if_neg hz] at hrc
                simp only [Option.some.injEq] at hrc
                subst hrc
                simp [show_at_reqs]

def worldRunW : World :=
  { connectOk := true, screen := scrTrueW, focus := FocusResult.ran ⟨0, "7", ""⟩,
    geometry := some (800, 600), termSize := some (80, 24),
    termSizePixels := some (800, 480), decode := some (2, 1), reqOk := okAllW }

def trRunW : List MainEv :=
  [MainEv.connectCall, MainEv.focusQueryCall,
   MainEv.protoReq (XReq.getGeometry 7),
   MainEv.termSizeCall, MainEv.termSizePixelsCall, MainEv.decodeCall,
   MainEv.protoReq (XReq.createGC 0 1),
   MainEv.protoReq (XReq.createPixmap 24 1 1 2 1),
   MainEv.protoReq (XReq.putImage 1 0 0 0),
   MainEv.protoReq (XReq.createWindow 24 2 1 0 0 2 1 1),
   MainEv.protoReq (XReq.reparentWindow 2 7 10 100),
   MainEv.protoReq (XReq.freePixmap 1),
   MainEv.protoReq (XReq.freeGC 0),
   MainEv.protoReq (XReq.mapWindow 2),
   MainEv.protoReq XReq.flushConn]

def s3RunW : ConnSt := { nextId := 3, callIdx := 10, trace := trRunW }

def d3RunW : ImageDisplay := { imageW := 2, imageH := 1, parent_window := 7, window := some 2 }

/-- Witness for C3 at a concrete full run (CLI row 1, CLI column 2):
the x offset uses the row argument, the y offset the column argument. -/
theorem mainRun_position_swapped_witness :
    MainEv.protoReq
        (XReq.reparentWindow 2 d3RunW.parent_window
          (toI16 (centering_offset 800 800 + toI16 (1 * per_cell 800 80)))
          (toI16 (centering_offset 600 480 + toI16 (2 * per_cell 480 24))))
      ∈ trRunW :=
  mainRun_position_swapped worldRunW 1 2 800 600 80 24 800 480 trRunW s3RunW d3RunW
    rfl rfl rfl (by decide)

/-- C2 (amended): whenever no 16-bit wrap occurs (each intermediate value of
the computation lies in the `i16` range), the coordinate mapper returns, per
axis, exactly the centering offset plus position-component times per-cell
pixel size of the spec's exact-arithmetic formula (`spec_map`); and on the
concrete scenario-B input the result is `(0, 60)`. -/
theorem rowcol_matches_spec_map :
    (∀ (width height cols rows xpixels ypixels : Nat) (row col : Int),
      rows ≠ 0 → cols ≠ 0 →
      ypixels / rows < 32768 → xpixels / cols < 32768 →
      -32768 ≤ (height : Int) - (ypixels : Int) → (height : Int) - (ypixels : Int) < 32768 →
      -32768 ≤ (width : Int) - (xpixels : Int) → (width : Int) - (xpixels : Int) < 32768 →
      -32768 ≤ row * ((ypixels / rows : Nat) : Int) →
      row * ((ypixels / rows : Nat) : Int) < 32768 →
      -32768 ≤ col * ((xpixels / cols : Nat) : Int) →
      col * ((xpixels / cols : Nat) : Int) < 32768 →
      -32768 ≤ Int.tdiv ((width : Int) - (xpixels : Int)) 2 + col * ((xpixels / cols : Nat) : Int) →
      Int.tdiv ((width : Int) - (xpixels : Int)) 2 + col * ((xpixels / cols : Nat) : Int) < 32768 →
      -32768 ≤ Int.tdiv ((height : Int) - (ypixels : Int)) 2 + row * ((ypixels / rows : Nat) : Int) →
      Int.tdiv ((height : Int) - (ypixels : Int)) 2 + row * ((ypixels / rows : Nat) : Int) < 32768 →
      rowcol_to_pixels width height cols rows xpixels ypixels (row, col) =
        some (spec_map width height cols rows xpixels ypixels (row, col))) ∧
    rowcol_to_pixels 800 600 80 24 800 480 (0, 0) = some (0, 60) ∧
    spec_map 800 600 80 24 800 480 (0, 0) = (0, 60) := by
  refine ⟨?_, by decide, by decide⟩
  intro width height cols rows xp yp row col hr hc hyr hxc hh1 hh2 hw1 hw2
    hry1 hry2 hcx1 hcx2 hsx1 hsx2 hsy1 hsy2
  have eyr : toI16 ((yp / rows : Nat) : Int) = ((yp / rows : Nat) : Int) :=
    toI16_of_range (le_trans (by norm_num) (Int.natCast_nonneg _)) (by exact_mod_cast hyr)
  have exc : toI16 ((xp / cols : Nat) : Int) = ((xp / cols : Nat) : Int) :=
    toI16_of_range (le_trans (by norm_num) (Int.natCast_nonneg _)) (by exact_mod_cast hxc)
  have eh : toI16 ((height : Int) - (yp : Int)) = (height : Int) - (yp : Int) :=
    toI16_of_range hh1 hh2
  have ew : toI16 ((width : Int) - (xp : Int)) = (width : Int) - (xp : Int) :=
    toI16_of_range hw1 hw2
  rw [rowcol_to_pixels, if_neg (by omega)]
  simp only [per_cell, centering_offset, spec_map, eyr, exc, eh, ew]
  rw [toI16_of_range hry1 hry2, toI16_of_range hcx1 hcx2,
    toI16_of_range hsx1 hsx2, toI16_of_range hsy1 hsy2]

/-- Witness for C2's amended theorem: the general part applied at the
scenario-B input, every range hypothesis discharged there. -/
theorem rowcol_matches_spec_map_witness :
    rowcol_to_pixels 800 600 80 24 800 480 (0, 0) =
      some (spec_map 800 600 80 24 800 480 (0, 0)) :=
  rowcol_matches_spec_map.1 800 600 80 24 800 480 0 0
    (by decide) (by decide) (by decide) (by decide) (by decide) (by decide)
    (by decide) (by decide) (by decide) (by decide) (by decide) (by decide)
    (by decide) (by decide) (by decide) (by decide)

/-- C2 counterexample: with window height 0 and terminal pixel height 40000
(both representable `u16` values), the `u16` subtraction `0 - 40000` wraps
to 25536, so the code returns y = 12768 while the claimed formula (centering
offset plus position times per-cell size, in exact integer arithmetic) gives
−20000: the mapper's output is not the claimed sum. -/
theorem rowcol_spec_map_counterexample :
    rowcol_to_pixels 800 0 80 20 800 40000 (0, 0) = some (0, 12768) ∧
    spec_map 800 0 80 20 800 40000 (0, 0) = (0, -20000) ∧
    rowcol_to_pixels 800 0 80 20 800 40000 (0, 0) ≠
      some (spec_map 800 0 80 20 800 40000 (0, 0)) := by
  refine ⟨by decide, by decide, by decide⟩

/-- C8: with a zero terminal grid dimension the per-cell division is a
divide-by-zero: the mapper does not return a normal offset (the `u16`
division panics in Rust, modeled as `none`). -/
theorem rowcol_zero_grid_no_offset :
    ∀ (width height cols rows xpixels ypixels : Nat) (pos : Int × Int),
      rows = 0 ∨ cols = 0 →
      rowcol_to_pixels width height cols rows xpixels ypixels pos = none := by
  intro width height cols rows xp yp pos h
  rw [rowcol_to_pixels, if_pos h]

/-- Witness for C8 at a concrete zero-row grid. -/
theorem rowcol_zero_grid_no_offset_witness :
    rowcol_to_pixels 800 600 80 0 800 480 (0, 0) = none :=
  rowcol_zero_grid_no_offset 800 600 80 0 800 480 (0, 0) (Or.inl rfl)

/-- C9 (amended): when the terminal's pixel size exceeds the window's on an
axis by at least 2 and at most 32768, the centering offset computed for that
axis is negative; and the offset returned at position (0,0) is exactly the
(possibly negative) centering offset pair — no clamping to the window
bounds is applied. -/
theorem centering_negative_unclamped :
    ∀ (width height cols rows xpixels ypixels : Nat),
      rows ≠ 0 → cols ≠ 0 →
      (2 ≤ (ypixels : Int) - (height : Int) → (ypixels : Int) - (height : Int) ≤ 32768 →
        centering_offset height ypixels < 0) ∧
      (2 ≤ (xpixels : Int) - (width : Int) → (xpixels : Int) - (width : Int) ≤ 32768 →
        centering_offset width xpixels < 0) ∧
      rowcol_to_pixels width height cols rows xpixels ypixels (0, 0) =
        some (centering_offset width xpixels, centering_offset height ypixels) := by
  intro width height cols rows xp yp hr hc
  refine ⟨?_, ?_, ?_⟩
  · intro h1 h2
    rw [centering_offset, toI16_of_range (by omega) (by omega)]
    exact tdiv_two_neg (by omega)
  · intro h1 h2
    rw [centering_offset, toI16_of_range (by omega) (by omega)]
    exact tdiv_two_neg (by omega)
  · rw [rowcol_to_pixels, if_neg (by omega)]
    have t0 : toI16 ((0 : Int) * per_cell xp cols) = 0 := by
      rw [zero_mul]; decide
    have t1 : toI16 ((0 : Int) * per_cell yp rows) = 0 := by
      rw [zero_mul]; decide
    simp only [t0, t1, add_zero]
    rw [toI16_of_range (centering_offset_lb _ _) (centering_offset_ub _ _),
      toI16_of_range (centering_offset_lb _ _) (centering_offset_ub _ _)]

/-- Witness for C9's amended theorem: window 600×599, terminal pixels
620×620 (excess 20 and 21), grid 80×24. -/
theorem centering_negative_unclamped_witness :
    centering_offset 599 620 < 0 ∧ centering_offset 600 620 < 0 ∧
    rowcol_to_pixels 600 599 80 24 620 620 (0, 0) =
      some (centering_offset 600 620, centering_offset 599 620) := by
  obtain ⟨a, b, c⟩ := centering_negative_unclamped 600 599 80 24 620 620
    (by decide) (by decide)
  exact ⟨a (by decide) (by decide), b (by decide) (by decide), c⟩

/-- C9 counterexample: terminal pixel height 600 exceeds window height 599,
yet the centering offset is 0, not negative: `(-1 : i16) / 2` truncates to
0. -/
theorem centering_offset_not_negative_counterexample :
    (600 : Int) - (599 : Int) > 0 ∧
    centering_offset 599 600 = 0 ∧
    ¬ centering_offset 599 600 < 0 ∧
    rowcol_to_pixels 800 599 80 24 800 600 (0, 0) = some (0, 0) := by
  refine ⟨by decide, by decide, by decide, by decide⟩

/-- C10 (amended): holding geometry, grid and pixel size fixed, and
provided the y-axis intermediate values for both positions stay in the
`i16` range, the mapper is linear in the row: moving from row `r` to row
`r + 1` adds exactly the per-row pixel size to the y offset and leaves the
x offset unchanged. -/
theorem rowcol_linear_in_row :
    ∀ (width height cols rows xpixels ypixels : Nat) (row col : Int),
      rows ≠ 0 → cols ≠ 0 →
      -32768 ≤ row * per_cell ypixels rows → row * per_cell ypixels rows < 32768 →
      -32768 ≤ (row + 1) * per_cell ypixels rows → (row + 1) * per_cell ypixels rows < 32768 →
      -32768 ≤ centering_offset height ypixels + row * per_cell ypixels rows →
      centering_offset height ypixels + row * per_cell ypixels rows < 32768 →
      -32768 ≤ centering_offset height ypixels + (row + 1) * per_cell ypixels rows →
      centering_offset height ypixels + (row + 1) * per_cell ypixels rows < 32768 →
      rowcol_to_pixels width height cols rows xpixels ypixels (row + 1, col) =
        (rowcol_to_pixels width height cols rows xpixels ypixels (row, col)).map
          (fun p => (p.1, p.2 + per_cell ypixels rows)) := by
  intro width height cols rows xp yp row col hr hc h1 h2 h3 h4 h5 h6 h7 h8
  rw [rowcol_to_pixels, if_neg (by omega), rowcol_to_pixels, if_neg (by omega)]
  simp only [Option.map_some]
  rw [toI16_of_range h1 h2, toI16_of_range h3 h4]
  rw [toI16_of_range h5 h6, toI16_of_range h7 h8]
  refine congrArg some (Prod.ext rfl ?_)
  ring

/-- Witness for C10's amended theorem at the scenario-B geometry, row 1,
column 2. -/
theorem rowcol_linear_in_row_witness :
    rowcol_to_pixels 800 600 80 24 800 480 (1 + 1, 2) =
      (rowcol_to_pixels 800 600 80 24 800 480 (1, 2)).map
        (fun p => (p.1, p.2 + per_cell 480 24)) :=
  rowcol_linear_in_row 800 600 80 24 800 480 1 2
    (by decide) (by decide) (by decide) (by decide) (by decide) (by decide)
    (by decide) (by decide) (by decide) (by decide)

/-- C10 counterexample: grid 1×1, terminal 2×2 px, window 2×2 px.  The
per-row pixel size is 2, but moving from row 16383 to row 16384 wraps the
16-bit product: y goes from 32766 to −32768, a difference of −65534, not 2.
-/
theorem rowcol_linear_counterexample :
    rowcol_to_pixels 2 2 1 1 2 2 (16383, 0) = some (0, 32766) ∧
    rowcol_to_pixels 2 2 1 1 2 2 (16383 + 1, 0) = some (0, -32768) ∧
    per_cell 2 1 = 2 ∧
    ((-32768 : Int) - 32766 ≠ 2) := by
  refine ⟨by decide, by decide, by decide, by decide⟩

end Termimg
